import Mathlib

/-!
# Verification of the watermill broker adapters

Shallow embedding of the two source files of this repository:

* `message/infrastructure/googlecloud/subscriber.go` — the Google Cloud
  Pub/Sub subscriber: subscription registry (`Subscriber.subscription`),
  `Subscribe`, `Close`, and the per-message receive loop
  (`Subscriber.receive`).
* `message/infrastructure/nats/publisher.go` — the NATS Streaming
  publisher (`StreamingPublisher.Publish`).

Go maps become association lists, channels become event traces, the
external broker client becomes an explicit broker state with fault
injection, and the nondeterminism of `select` becomes an oracle argument
choosing which ready case fires.
-/

namespace Watermill

/-- Modelled from the spec: the Message entity of section 3 (the source
file `message/message.go` is outside the two adapter files): an opaque
`UUID`, a byte `Payload`, and string-to-string `Metadata`.  The ack state
machine is not needed here; the adapters only observe its two completion
signals, which are modelled as oracle choices. -/
structure WMessage where
  uuid : String
  payload : List Nat
  metadata : List (String × String)
deriving DecidableEq, Repr

/-- `pkg/errors` wrapping: `errors.Wrap(err, msg)` renders as
`msg ++ ": " ++ err`. -/
def wrapErr (inner msg : String) : String := msg ++ ": " ++ inner

namespace GoogleCloud

/-- `var ErrSubscriberClosed = errors.New("subscriber is closed")`. -/
def errSubscriberClosed : String := "subscriber is closed"

/-- `var ErrSubscriptionDoesNotExist = errors.New("subscription does not exist")`. -/
def errSubscriptionDoesNotExist : String := "subscription does not exist"

/-- Modelled from the spec: `ErrTopicDoesNotExist` is referenced by
`subscriber.go` but declared in the googlecloud publisher file, which is
not among the source files; the spec calls it a not-found error on the
topic. -/
def errTopicDoesNotExist : String := "topic does not exist"

/-- The part of `pubsub.SubscriptionConfig` the code touches: the `Topic`
field it assigns (a handle, modelled by the topic name, `none` for the
zero value) plus an opaque residue `opts` standing for every other
configured option. -/
structure SubscriptionConfig where
  topic : Option String
  opts : Nat
deriving DecidableEq, Repr

/-- A `*pubsub.Subscription` handle: its name and its `ReceiveSettings`
field (opaque, modelled as `Nat`; `0` is the zero value a fresh handle
carries). -/
structure PubsubSubscription where
  name : String
  receiveSettings : Nat
deriving DecidableEq, Repr

/-- Broker-side state observed through the client: which topics and which
subscriptions exist. -/
structure Broker where
  topics : List String
  subs : List String
deriving DecidableEq, Repr

/-- Fault injection for the four fallible broker calls the registry makes;
`some e` makes that call fail with underlying error `e`. -/
structure BrokerFaults where
  subExistsErr : Option String
  topicExistsErr : Option String
  createTopicErr : Option String
  createSubErr : Option String
deriving DecidableEq, Repr

/-- The fault-free broker client. -/
def noFaults : BrokerFaults :=
  { subExistsErr := none, topicExistsErr := none,
    createTopicErr := none, createSubErr := none }

/-- Trace of broker calls issued by the registry, with their arguments. -/
inductive BrokerOp where
  | subExists (name : String)
  | topicExists (name : String)
  | createTopic (name : String)
  | createSub (name : String) (config : SubscriptionConfig)
deriving DecidableEq, Repr

/-- `SubscriberConfig`: the fields of the Go struct that the subscriber
reads (`ProjectID` and `ClientOptions` only feed client construction and
are omitted; `Unmarshaler` is passed separately to the receive loop). -/
structure SubscriberConfig where
  subscriptionName : String → String
  doNotCreateSubscriptionIfMissing : Bool
  doNotCreateTopicIfMissing : Bool
  receiveSettings : Nat
  subscriptionConfig : SubscriptionConfig

/-- Go map read `s.activeSubscriptions[subscriptionName]` on the
association-list model. -/
def lookupSub (cache : List (String × PubsubSubscription)) (name : String) :
    Option PubsubSubscription :=
  match cache with
  | [] => none
  | (k, v) :: rest => if k = name then some v else lookupSub rest name

/-- State guarded by `activeSubscriptionsLock`: the
`activeSubscriptions` map, together with the broker state its critical
section mutates. -/
structure RegistryState where
  cache : List (String × PubsubSubscription)
  broker : Broker
deriving DecidableEq, Repr

/-- Result of resolving a subscription: a handle, a returned error, or a
nil-pointer dereference (Go panic). -/
inductive ResolveOutcome where
  | ok (sub : PubsubSubscription)
  | err (e : String)
  | panicNil
deriving DecidableEq, Repr

/-- Modelled from the spec: the external client call
`client.CreateSubscription(ctx, name, config)`.  The broker transport is
an external collaborator; per the Go convention of the cloud client it
returns a nil handle together with the error on failure, and a fresh
handle (zero `ReceiveSettings`) after registering the subscription on
success. -/
def clientCreateSubscription (flt : BrokerFaults) (b : Broker) (name : String)
    (config : SubscriptionConfig) :
    (Option PubsubSubscription × Option String) × Broker :=
  match flt.createSubErr with
  | some e => ((none, some e), b)
  | none =>
      ((some { name := name, receiveSettings := 0 }, none),
       { b with subs := name :: b.subs })

/-- The slow path of `Subscriber.subscription` (subscriber.go lines
215-259): everything executed while `activeSubscriptionsLock` is held
exclusively, including the deferred cache write (`if err == nil` caches
the named return `sub`).  Returns the outcome, the updated registry
state, and the trace of broker calls issued. -/
def slowPath (cfg : SubscriberConfig) (flt : BrokerFaults) (st : RegistryState)
    (name topicName : String) :
    ResolveOutcome × RegistryState × List BrokerOp :=
  -- sub = s.client.Subscription(subscriptionName)
  let sub0 : PubsubSubscription := { name := name, receiveSettings := 0 }
  -- exists, err := sub.Exists(ctx)
  match flt.subExistsErr with
  | some e =>
      (ResolveOutcome.err
        (wrapErr e ("could not check if subscription " ++ name ++ " exists")),
       st, [BrokerOp.subExists name])
  | none =>
    if st.broker.subs.contains name then
      -- return sub, nil; deferred write caches the handle
      (ResolveOutcome.ok sub0,
       { st with cache := (name, sub0) :: st.cache },
       [BrokerOp.subExists name])
    else if cfg.doNotCreateSubscriptionIfMissing then
      (ResolveOutcome.err (wrapErr errSubscriptionDoesNotExist name),
       st, [BrokerOp.subExists name])
    else
      -- t := s.client.Topic(topicName); exists, err = t.Exists(ctx)
      match flt.topicExistsErr with
      | some e =>
          (ResolveOutcome.err
            (wrapErr e ("could not check if topic " ++ topicName ++ " exists")),
           st, [BrokerOp.subExists name, BrokerOp.topicExists topicName])
      | none =>
        let topicExisted := st.broker.topics.contains topicName
        if !topicExisted && cfg.doNotCreateTopicIfMissing then
          (ResolveOutcome.err (wrapErr errTopicDoesNotExist topicName),
           st, [BrokerOp.subExists name, BrokerOp.topicExists topicName])
        else
          match (if topicExisted then none else flt.createTopicErr) with
          | some e =>
              (ResolveOutcome.err
                (wrapErr e "could not create topic for subscription"),
               st,
               [BrokerOp.subExists name, BrokerOp.topicExists topicName,
                BrokerOp.createTopic topicName])
          | none =>
            let b1 : Broker :=
              if topicExisted then st.broker
              else { st.broker with topics := topicName :: st.broker.topics }
            let opsSoFar :=
              if topicExisted then
                [BrokerOp.subExists name, BrokerOp.topicExists topicName]
              else
                [BrokerOp.subExists name, BrokerOp.topicExists topicName,
                 BrokerOp.createTopic topicName]
            -- config := s.config.SubscriptionConfig; config.Topic = t
            let config := { cfg.subscriptionConfig with topic := some topicName }
            -- sub, err = s.client.CreateSubscription(ctx, subscriptionName, config)
            let r := clientCreateSubscription flt b1 name config
            match r.1.1 with
            | none =>
                -- sub.ReceiveSettings = ... dereferences the nil handle
                (ResolveOutcome.panicNil,
                 { st with broker := r.2 },
                 opsSoFar ++ [BrokerOp.createSub name config])
            | some h =>
                let h2 := { h with receiveSettings := cfg.receiveSettings }
                match r.1.2 with
                | some e =>
                    -- return sub, err with err non-nil: no cache write
                    (ResolveOutcome.err e, { st with broker := r.2 },
                     opsSoFar ++ [BrokerOp.createSub name config])
                | none =>
                    (ResolveOutcome.ok h2,
                     { cache := (name, h2) :: st.cache, broker := r.2 },
                     opsSoFar ++ [BrokerOp.createSub name config])

/-- `Subscriber.subscription` (subscriber.go lines 207-260): the fast
path reads the cache under the read lock and returns on a hit; otherwise
the slow path runs under the exclusive lock. -/
def subscriptionResolve (cfg : SubscriberConfig) (flt : BrokerFaults)
    (st : RegistryState) (name topicName : String) :
    ResolveOutcome × RegistryState × List BrokerOp :=
  match lookupSub st.cache name with
  | some sub => (ResolveOutcome.ok sub, st, [])
  | none => slowPath cfg flt st name topicName

/-- A native `*pubsub.Message` as seen by the receive callback. -/
structure PubsubMessage where
  data : List Nat
  attributes : List (String × String)
deriving DecidableEq, Repr

/-- Observable events of one receive loop: a send of an unmarshaled
message on the output channel, a broker-side `Ack()`, or a broker-side
`Nack()`. -/
inductive Event where
  | send (m : WMessage)
  | brokerAck
  | brokerNack
deriving DecidableEq, Repr

/-- Oracle for the second `select` of the receive callback (subscriber.go
lines 187-194): which of `s.closing`, `msg.Acked()`, `msg.Nacked()` is
taken. -/
inductive AckRace where
  | closingFirst
  | ackedFirst
  | nackedFirst
deriving DecidableEq, Repr

/-- Oracle for the first `select` (lines 175-185): either `s.closing`
wins before the send, or the message is sent and the `AckRace` oracle
decides the second `select`. -/
inductive Fate where
  | closingBeforeSend
  | sent (race : AckRace)
deriving DecidableEq, Repr

/-- The body of the receive callback (subscriber.go lines 167-194) for
one native message: unmarshal, race the send against closing, then race
closing against the ack and nack completion signals.  `u` is the
configured `Unmarshaler` (`none` = unmarshal error). -/
def handleMessage (u : PubsubMessage → Option WMessage) (f : Fate)
    (pm : PubsubMessage) : List Event :=
  match u pm with
  | none => [Event.brokerNack]
  | some m =>
    match f with
    | Fate.closingBeforeSend => [Event.brokerNack]
    | Fate.sent race =>
        Event.send m ::
          (match race with
           | AckRace.closingFirst => [Event.brokerNack]
           | AckRace.ackedFirst => [Event.brokerAck]
           | AckRace.nackedFirst => [Event.brokerNack])

/-- `Subscriber.receive`: the loop of callback invocations `sub.Receive`
makes, one per native message, each with its own oracle. -/
def receiveLoop (u : PubsubMessage → Option WMessage) :
    List Fate → List PubsubMessage → List Event
  | _, [] => []
  | [], _ :: _ => []
  | f :: fs, pm :: pms => handleMessage u f pm ++ receiveLoop u fs pms

/-- Which events are broker acknowledgments (positive or negative). -/
def isBrokerAckEvent : Event → Bool
  | Event.send _ => false
  | Event.brokerAck => true
  | Event.brokerNack => true

/-- Per-subscriber state outside the registry: the `closed` flag, the
`closing` channel, and the count of receive loops registered with
`allSubscriptionsWaitGroup`. -/
structure SubscriberState where
  closed : Bool
  closingClosed : Bool
  loops : Nat
  reg : RegistryState
deriving DecidableEq, Repr

/-- Outcome of `Subscribe`: a channel (identified by its index) paired
with the resolved handle, an error return, or a panic propagated from the
registry. -/
inductive SubscribeOutcome where
  | ok (channel : Nat) (sub : PubsubSubscription)
  | err (e : String)
  | panicked
deriving DecidableEq, Repr

/-- `Subscriber.Subscribe` (subscriber.go lines 97-141): reject when
closed, resolve through the registry, and on success register one receive
loop and hand back a fresh output channel. -/
def subscriberSubscribe (cfg : SubscriberConfig) (flt : BrokerFaults)
    (st : SubscriberState) (topic : String) :
    SubscribeOutcome × SubscriberState × List BrokerOp :=
  if st.closed then
    (SubscribeOutcome.err errSubscriberClosed, st, [])
  else
    let name := cfg.subscriptionName topic
    let r := subscriptionResolve cfg flt st.reg name topic
    match r.1 with
    | ResolveOutcome.ok sub =>
        (SubscribeOutcome.ok st.loops sub,
         { st with reg := r.2.1, loops := st.loops + 1 }, r.2.2)
    | ResolveOutcome.err e =>
        (SubscribeOutcome.err e, { st with reg := r.2.1 }, r.2.2)
    | ResolveOutcome.panicNil =>
        (SubscribeOutcome.panicked, { st with reg := r.2.1 }, r.2.2)

/-- The shutdown work the first `Close` performs, in program order. -/
inductive CloseStep where
  | setClosed
  | closeClosing
  | waitLoops
  | closeClient
deriving DecidableEq, Repr

/-- `Subscriber.Close` (subscriber.go lines 143-159): a no-op returning
`nil` when already closed; otherwise set the flag, close the `closing`
channel, wait for the loops, and close the client (whose error, injected
as `clientCloseErr`, is returned). -/
def subscriberClose (clientCloseErr : Option String) (st : SubscriberState) :
    Option String × SubscriberState × List CloseStep :=
  if st.closed then
    (none, st, [])
  else
    (clientCloseErr,
     { st with closed := true, closingClosed := true },
     [CloseStep.setClosed, CloseStep.closeClosing, CloseStep.waitLoops,
      CloseStep.closeClient])

/-! ### Two concurrent callers of the registry

`activeSubscriptionsLock` serializes the slow paths and makes each fast
read atomic, so an execution of two concurrent `subscription` calls for
the same name is an interleaving of atomic steps: a fast cache read that
either hits (the caller returns) or misses (the caller proceeds to the
slow path), and the whole locked slow path as one step. -/

/-- Program counter of one caller of `Subscriber.subscription`. -/
inductive CallerPc where
  | start
  | needSlow
  | finished
deriving DecidableEq, Repr

/-- One caller: its program counter and its result once finished. -/
structure CallerState where
  pc : CallerPc
  result : Option ResolveOutcome
deriving DecidableEq, Repr

/-- Joint state of two concurrent callers sharing the registry, with the
cumulative trace of broker calls. -/
structure TwoCallerState where
  a : CallerState
  b : CallerState
  reg : RegistryState
  trace : List BrokerOp
deriving DecidableEq, Repr

/-- One atomic step of a single caller: the fast cache read under the
read lock, or the entire slow path under the exclusive lock. -/
def stepCaller (cfg : SubscriberConfig) (flt : BrokerFaults)
    (name topicName : String) (c : CallerState) (reg : RegistryState) :
    CallerState × RegistryState × List BrokerOp :=
  match c.pc with
  | CallerPc.start =>
    match lookupSub reg.cache name with
    | some sub =>
        ({ pc := CallerPc.finished, result := some (ResolveOutcome.ok sub) },
         reg, [])
    | none => ({ c with pc := CallerPc.needSlow }, reg, [])
  | CallerPc.needSlow =>
      let r := slowPath cfg flt reg name topicName
      ({ pc := CallerPc.finished, result := some r.1 }, r.2.1, r.2.2)
  | CallerPc.finished => (c, reg, [])

/-- Scheduler step: `false` steps caller `a`, `true` steps caller `b`. -/
def stepTwo (cfg : SubscriberConfig) (flt : BrokerFaults)
    (name topicName : String) (s : TwoCallerState) (who : Bool) :
    TwoCallerState :=
  if who then
    let r := stepCaller cfg flt name topicName s.b s.reg
    { s with b := r.1, reg := r.2.1, trace := s.trace ++ r.2.2 }
  else
    let r := stepCaller cfg flt name topicName s.a s.reg
    { s with a := r.1, reg := r.2.1, trace := s.trace ++ r.2.2 }

/-- Run a schedule of interleaved caller steps. -/
def runTwoCallers (cfg : SubscriberConfig) (flt : BrokerFaults)
    (name topicName : String) (sched : List Bool) (s : TwoCallerState) :
    TwoCallerState :=
  match sched with
  | [] => s
  | who :: rest =>
      runTwoCallers cfg flt name topicName rest
        (stepTwo cfg flt name topicName s who)

/-- Initial joint state: both callers at their fast check, over a given
cache and broker, empty trace. -/
def initTwoCallers (cache : List (String × PubsubSubscription)) (b : Broker) :
    TwoCallerState :=
  { a := { pc := CallerPc.start, result := none },
    b := { pc := CallerPc.start, result := none },
    reg := { cache := cache, broker := b },
    trace := [] }

/-- Number of `CreateSubscription` calls in a broker trace. -/
def countCreates (tr : List BrokerOp) : Nat :=
  tr.countP (fun op =>
    match op with
    | BrokerOp.createSub _ _ => true
    | _ => false)

/-! ### Shutdown ordering

The synchronization structure of `Subscribe` (subscriber.go lines
120-138) and `Close` (lines 143-159), as timestamps of the events of one
run in which `Close` is called and returns.  Each field of
`ShutdownHb` records one happens-before edge given directly by a
synchronization primitive or by program order in one goroutine; the
claims compose them. -/

/-- Timestamps of the shutdown-relevant events of a run: per registered
subscription `s`, when its receive call returned, when `receiveFinished`
was closed, when the output channel was closed, when `Done` ran; plus
when `Wait` returned and when `Close` returned.  `sendTimes s` lists the
times of the sends on the output channel of `s`. -/
structure ShutdownRun where
  subs : List Nat
  sendTimes : Nat → List Nat
  tReceiveReturn : Nat → Nat
  tReceiveFinishedClosed : Nat → Nat
  tCloseOutput : Nat → Nat
  tWgDone : Nat → Nat
  tWgWaitReturn : Nat
  tCloseReturn : Nat

/-- The happens-before edges the code establishes:
sends happen inside `s.receive` before it returns (line 183 within line
123); `close(receiveFinished)` (line 127) follows the return of
`s.receive`; the closer goroutine closes the output channel (line 136)
only after `<-receiveFinished` (line 135) and calls `Done` (line 137)
after that; `allSubscriptionsWaitGroup.Wait()` (line 150) returns only
after every registered `Done`; `Close` returns after `Wait` (lines
150-158). -/
def ShutdownHb (r : ShutdownRun) : Prop :=
  (∀ s ∈ r.subs, ∀ t ∈ r.sendTimes s, t < r.tReceiveReturn s) ∧
  (∀ s ∈ r.subs, r.tReceiveReturn s < r.tReceiveFinishedClosed s) ∧
  (∀ s ∈ r.subs, r.tReceiveFinishedClosed s < r.tCloseOutput s) ∧
  (∀ s ∈ r.subs, r.tCloseOutput s < r.tWgDone s) ∧
  (∀ s ∈ r.subs, r.tWgDone s < r.tWgWaitReturn) ∧
  (r.tWgWaitReturn < r.tCloseReturn)

end GoogleCloud

namespace Nats

/-- `StreamingPublisher.Publish` (publisher.go lines 68-88) as a fold
over the message list: marshal each message with the configured
`Marshaler` and submit the bytes through `conn.Publish`.  Returns the
error result and, as a trace, the payloads handed to `conn.Publish` in
order.  A marshal error is returned as-is (`return err`); a transport
error is wrapped with `"sending message failed"`. -/
def streamingPublish (marshal : String → WMessage → Except String (List Nat))
    (transport : String → List Nat → Option String) (topic : String) :
    List WMessage → Option String × List (List Nat)
  | [] => (none, [])
  | m :: rest =>
    match marshal topic m with
    | Except.error e => (some e, [])
    | Except.ok b =>
      match transport topic b with
      | some e => (some (wrapErr e "sending message failed"), [b])
      | none =>
          let r := streamingPublish marshal transport topic rest
          (r.1, b :: r.2)

end Nats

end Watermill

namespace Watermill.GoogleCloud

/-- Fixture: a subscriber configuration with default naming and policies. -/
def cfgDefault : SubscriberConfig :=
  { subscriptionName := fun topic => topic,
    doNotCreateSubscriptionIfMissing := false,
    doNotCreateTopicIfMissing := false,
    receiveSettings := 4,
    subscriptionConfig := { topic := none, opts := 9 } }

/-- Fixture: faults making only `CreateSubscription` fail. -/
def fltCreateSubFails : BrokerFaults :=
  { noFaults with createSubErr := some "permission denied" }

/-- Fixture: an unmarshaler failing exactly on empty payloads. -/
def uFixture : PubsubMessage → Option WMessage :=
  fun pm =>
    match pm.data with
    | [] => none
    | _ => some { uuid := "u1", payload := pm.data, metadata := pm.attributes }

/-- Claim C7: `Close` is idempotent — after any `Close` call, a second
`Close` performs no shutdown work and returns success, whatever error the
client close reported the first time. -/
theorem claim7_close_idempotent (e1 e2 : Option String) (st : SubscriberState) :
    subscriberClose e2 (subscriberClose e1 st).2.1 =
      (none, (subscriberClose e1 st).2.1, []) := by
  by_cases h : st.closed
  · simp [subscriberClose, h]
  · simp [subscriberClose, h]

/-- Claim C8: once the subscriber is closed, `Subscribe` fails
immediately with the subscriber-closed error, issues no broker call,
registers no receive loop and returns no channel (the state is
untouched). -/
theorem claim8_subscribe_after_close (cfg : SubscriberConfig)
    (flt : BrokerFaults) (st : SubscriberState) (topic : String)
    (h : st.closed = true) :
    subscriberSubscribe cfg flt st topic =
      (SubscribeOutcome.err errSubscriberClosed, st, []) := by
  simp [subscriberSubscribe, h]

/-- Witness for C8 at a concrete closed subscriber. -/
theorem claim8_witness :
    ({ closed := true, closingClosed := true, loops := 2,
       reg := { cache := [], broker := { topics := [], subs := [] } } }
        : SubscriberState).closed = true ∧
    subscriberSubscribe cfgDefault noFaults
      { closed := true, closingClosed := true, loops := 2,
        reg := { cache := [], broker := { topics := [], subs := [] } } }
      "orders" =
      (SubscribeOutcome.err errSubscriberClosed,
       { closed := true, closingClosed := true, loops := 2,
         reg := { cache := [], broker := { topics := [], subs := [] } } },
       []) :=
  ⟨rfl, claim8_subscribe_after_close cfgDefault noFaults _ "orders" rfl⟩

/-- Claim C9, failing input: with the topic present and
`CreateSubscription` failing, the registry assigns `ReceiveSettings`
through the nil handle the client returned alongside the error — the
assignment precedes the error check, so resolution ends in a nil-pointer
dereference instead of returning the error. -/
theorem claim9_nil_deref_on_create_error :
    (subscriptionResolve cfgDefault fltCreateSubFails
       { cache := [], broker := { topics := ["orders"], subs := [] } }
       "orders" "orders").1 = ResolveOutcome.panicNil := by
  decide

/-- Claim C2: resolving a name whose subscription is missing on the
broker obeys the creation policy: with
`DoNotCreateSubscriptionIfMissing` it fails with the subscription
not-found error and creates nothing; otherwise, when the topic is also
missing and `DoNotCreateTopicIfMissing` is set, it fails with the topic
not-found error and creates nothing; otherwise the topic is created when
missing and the subscription is created bound to that topic with the
configured subscription options. -/
theorem claim2_missing_subscription_policy
    (cfg : SubscriberConfig) (name topic : String)
    (cache : List (String × PubsubSubscription)) (b : Broker)
    (hc : lookupSub cache name = none)
    (hs : b.subs.contains name = false) :
    (cfg.doNotCreateSubscriptionIfMissing = true →
      subscriptionResolve cfg noFaults { cache := cache, broker := b } name topic =
        (ResolveOutcome.err (wrapErr errSubscriptionDoesNotExist name),
         { cache := cache, broker := b },
         [BrokerOp.subExists name])) ∧
    (cfg.doNotCreateSubscriptionIfMissing = false →
     b.topics.contains topic = false →
     cfg.doNotCreateTopicIfMissing = true →
      subscriptionResolve cfg noFaults { cache := cache, broker := b } name topic =
        (ResolveOutcome.err (wrapErr errTopicDoesNotExist topic),
         { cache := cache, broker := b },
         [BrokerOp.subExists name, BrokerOp.topicExists topic])) ∧
    (cfg.doNotCreateSubscriptionIfMissing = false →
     b.topics.contains topic = true →
      subscriptionResolve cfg noFaults { cache := cache, broker := b } name topic =
        (ResolveOutcome.ok { name := name, receiveSettings := cfg.receiveSettings },
         { cache :=
             (name, { name := name, receiveSettings := cfg.receiveSettings }) :: cache,
           broker := { b with subs := name :: b.subs } },
         [BrokerOp.subExists name, BrokerOp.topicExists topic,
          BrokerOp.createSub name
            { cfg.subscriptionConfig with topic := some topic }])) ∧
    (cfg.doNotCreateSubscriptionIfMissing = false →
     b.topics.contains topic = false →
     cfg.doNotCreateTopicIfMissing = false →
      subscriptionResolve cfg noFaults { cache := cache, broker := b } name topic =
        (ResolveOutcome.ok { name := name, receiveSettings := cfg.receiveSettings },
         { cache :=
             (name, { name := name, receiveSettings := cfg.receiveSettings }) :: cache,
           broker := { topics := topic :: b.topics, subs := name :: b.subs } },
         [BrokerOp.subExists name, BrokerOp.topicExists topic,
          BrokerOp.createTopic topic,
          BrokerOp.createSub name
            { cfg.subscriptionConfig with topic := some topic }])) := by
  have hs2 : name ∉ b.subs := by simpa using hs
  refine ⟨?_, ?_, ?_, ?_⟩
  · intro h1
    simp [subscriptionResolve, hc, slowPath, noFaults, hs2, h1]
  · intro h1 ht h2
    have ht2 : topic ∉ b.topics := by simpa using ht
    simp [subscriptionResolve, hc, slowPath, noFaults, hs2, h1, ht2, h2]
  · intro h1 ht
    have ht2 : topic ∈ b.topics := by simpa using ht
    simp [subscriptionResolve, hc, slowPath, noFaults, hs2, h1, ht2,
      clientCreateSubscription]
  · intro h1 ht h2
    have ht2 : topic ∉ b.topics := by simpa using ht
    simp [subscriptionResolve, hc, slowPath, noFaults, hs2, h1, ht2, h2,
      clientCreateSubscription]

/-- Witness for C2 at a concrete missing subscription, with the
forbid-creation policy set (spec scenario B) exercised through the first
conjunct. -/
theorem claim2_witness :
    lookupSub [] "orders" = none ∧
    (Broker.mk ["orders"] []).subs.contains "orders" = false ∧
    (({ cfgDefault with doNotCreateSubscriptionIfMissing := true }
        : SubscriberConfig).doNotCreateSubscriptionIfMissing = true →
      subscriptionResolve { cfgDefault with doNotCreateSubscriptionIfMissing := true }
        noFaults { cache := [], broker := { topics := ["orders"], subs := [] } }
        "orders" "orders" =
        (ResolveOutcome.err (wrapErr errSubscriptionDoesNotExist "orders"),
         { cache := [], broker := { topics := ["orders"], subs := [] } },
         [BrokerOp.subExists "orders"])) :=
  ⟨rfl, rfl,
   (claim2_missing_subscription_policy
      { cfgDefault with doNotCreateSubscriptionIfMissing := true }
      "orders" "orders" [] { topics := ["orders"], subs := [] }
      rfl rfl).1⟩

/-- A successful slow path caches exactly the returned handle under the
resolved name (the deferred write with `err == nil`). -/
theorem slowPath_ok_cache {cfg : SubscriberConfig} {flt : BrokerFaults}
    {st : RegistryState} {name topic : String} {sub : PubsubSubscription}
    {st2 : RegistryState} {tr : List BrokerOp}
    (h : slowPath cfg flt st name topic = (ResolveOutcome.ok sub, st2, tr)) :
    st2.cache = (name, sub) :: st.cache := by
  have h2 := h.symm
  clear h
  unfold slowPath at h2
  simp only [clientCreateSubscription] at h2
  repeat' split at h2
  all_goals simp_all

/-- A slow path that returns an error leaves the cache untouched (the
deferred write is skipped when `err != nil`). -/
theorem slowPath_err_cache {cfg : SubscriberConfig} {flt : BrokerFaults}
    {st : RegistryState} {name topic : String} {e : String}
    {st2 : RegistryState} {tr : List BrokerOp}
    (h : slowPath cfg flt st name topic = (ResolveOutcome.err e, st2, tr)) :
    st2.cache = st.cache := by
  have h2 := h.symm
  clear h
  unfold slowPath at h2
  simp only [clientCreateSubscription] at h2
  repeat' split at h2
  all_goals simp_all

/-- Looking up the name just cached finds it first. -/
theorem lookupSub_cons_self (cache : List (String × PubsubSubscription))
    (name : String) (sub : PubsubSubscription) :
    lookupSub ((name, sub) :: cache) name = some sub := by
  simp [lookupSub]

/-- Claim C10: resolution is cache-idempotent — a successful resolve
caches the returned handle under the name, a later resolve of the same
name answers from the fast path with that same handle and no broker
call, and a failed resolve leaves the cache unchanged. -/
theorem claim10_cache_idempotent
    (cfg cfg2 : SubscriberConfig) (flt flt2 : BrokerFaults)
    (st : RegistryState) (name topic topic2 : String) :
    (∀ sub st2 tr,
      subscriptionResolve cfg flt st name topic = (ResolveOutcome.ok sub, st2, tr) →
        lookupSub st2.cache name = some sub ∧
        subscriptionResolve cfg2 flt2 st2 name topic2 =
          (ResolveOutcome.ok sub, st2, [])) ∧
    (∀ e st2 tr,
      subscriptionResolve cfg flt st name topic = (ResolveOutcome.err e, st2, tr) →
        st2.cache = st.cache) := by
  constructor
  · intro sub st2 tr h
    unfold subscriptionResolve at h
    have hfound : lookupSub st2.cache name = some sub := by
      cases hl : lookupSub st.cache name with
      | some s0 =>
          rw [hl] at h
          simp only [Prod.mk.injEq, ResolveOutcome.ok.injEq] at h
          obtain ⟨rfl, rfl, rfl⟩ := h
          exact hl
      | none =>
          rw [hl] at h
          rw [slowPath_ok_cache h]
          exact lookupSub_cons_self ..
    refine ⟨hfound, ?_⟩
    unfold subscriptionResolve
    rw [hfound]
  · intro e st2 tr h
    unfold subscriptionResolve at h
    cases hl : lookupSub st.cache name with
    | some s0 =>
        rw [hl] at h
        simp at h
    | none =>
        rw [hl] at h
        exact slowPath_err_cache h

/-- Witness for C10 at a concrete first-time resolve of `"orders"`. -/
theorem claim10_witness :
    subscriptionResolve cfgDefault noFaults
        { cache := [], broker := { topics := ["orders"], subs := [] } }
        "orders" "orders" =
      (ResolveOutcome.ok { name := "orders", receiveSettings := 4 },
       { cache := [("orders", { name := "orders", receiveSettings := 4 })],
         broker := { topics := ["orders"], subs := ["orders"] } },
       [BrokerOp.subExists "orders", BrokerOp.topicExists "orders",
        BrokerOp.createSub "orders" { topic := some "orders", opts := 9 }]) ∧
    lookupSub [("orders", { name := "orders", receiveSettings := 4 })] "orders" =
      some { name := "orders", receiveSettings := 4 } ∧
    subscriptionResolve cfgDefault noFaults
        { cache := [("orders", { name := "orders", receiveSettings := 4 })],
          broker := { topics := ["orders"], subs := ["orders"] } }
        "orders" "orders" =
      (ResolveOutcome.ok { name := "orders", receiveSettings := 4 },
       { cache := [("orders", { name := "orders", receiveSettings := 4 })],
         broker := { topics := ["orders"], subs := ["orders"] } },
       []) :=
  ⟨by decide,
   ((claim10_cache_idempotent cfgDefault cfgDefault noFaults noFaults
       { cache := [], broker := { topics := ["orders"], subs := [] } }
       "orders" "orders" "orders").1
     { name := "orders", receiveSettings := 4 }
     { cache := [("orders", { name := "orders", receiveSettings := 4 })],
       broker := { topics := ["orders"], subs := ["orders"] } }
     [BrokerOp.subExists "orders", BrokerOp.topicExists "orders",
      BrokerOp.createSub "orders" { topic := some "orders", opts := 9 }]
     (by decide)).1,
   ((claim10_cache_idempotent cfgDefault cfgDefault noFaults noFaults
       { cache := [], broker := { topics := ["orders"], subs := [] } }
       "orders" "orders" "orders").1
     { name := "orders", receiveSettings := 4 }
     { cache := [("orders", { name := "orders", receiveSettings := 4 })],
       broker := { topics := ["orders"], subs := ["orders"] } }
     [BrokerOp.subExists "orders", BrokerOp.topicExists "orders",
      BrokerOp.createSub "orders" { topic := some "orders", opts := 9 }]
     (by decide)).2⟩

/-- Splitting creation counts over concatenated traces. -/
theorem countCreates_append (a b : List BrokerOp) :
    countCreates (a ++ b) = countCreates a + countCreates b :=
  List.countP_append _ _ _

/-- When the subscription already exists broker-side, the slow path
creates nothing and leaves the broker unchanged, whatever the faults. -/
theorem slowPath_existing (cfg : SubscriberConfig) (flt : BrokerFaults)
    (st : RegistryState) (name topic : String)
    (h : st.broker.subs.contains name = true) :
    countCreates (slowPath cfg flt st name topic).2.2 = 0 ∧
    (slowPath cfg flt st name topic).2.1.broker = st.broker := by
  have h2 : name ∈ st.broker.subs := by simpa using h
  unfold slowPath
  cases hf : flt.subExistsErr <;> simp [countCreates, h2, hf]

/-- Without faults, one slow path either creates nothing and leaves the
broker subscriptions unchanged, or creates exactly once and leaves the
name present broker-side. -/
theorem slowPath_noFaults_spec (cfg : SubscriberConfig) (st : RegistryState)
    (name topic : String) :
    (countCreates (slowPath cfg noFaults st name topic).2.2 = 0 ∧
     (slowPath cfg noFaults st name topic).2.1.broker.subs = st.broker.subs) ∨
    (countCreates (slowPath cfg noFaults st name topic).2.2 = 1 ∧
     (slowPath cfg noFaults st name topic).2.1.broker.subs.contains name = true) := by
  unfold slowPath
  simp only [noFaults, clientCreateSubscription]
  repeat' split
  all_goals simp [countCreates]

/-- The registry invariant the lock preserves: either no creation has
happened yet, or exactly one has and the broker holds the name. -/
def RegInv (name : String) (tr : List BrokerOp) (b : Broker) : Prop :=
  countCreates tr = 0 ∨ (countCreates tr = 1 ∧ b.subs.contains name = true)

/-- One atomic caller step preserves the registry invariant. -/
theorem stepCaller_inv (cfg : SubscriberConfig) (name topic : String)
    (c : CallerState) (reg : RegistryState) (tr : List BrokerOp)
    (h : RegInv name tr reg.broker) :
    RegInv name (tr ++ (stepCaller cfg noFaults name topic c reg).2.2)
      (stepCaller cfg noFaults name topic c reg).2.1.broker := by
  cases c with
  | mk pc result =>
    cases pc with
    | start =>
        cases hl : lookupSub reg.cache name <;>
          simpa [stepCaller, hl] using h
    | finished => simpa [stepCaller] using h
    | needSlow =>
        simp only [stepCaller, RegInv, countCreates_append]
        rcases h with h0 | ⟨h1, hmem⟩
        · rcases slowPath_noFaults_spec cfg reg name topic with
            ⟨hc, hsubs⟩ | ⟨hc, hmem2⟩
          · left
            omega
          · right
            exact ⟨by omega, hmem2⟩
        · obtain ⟨hc, hbroker⟩ :=
            slowPath_existing cfg noFaults reg name topic hmem
          right
          rw [hbroker]
          exact ⟨by omega, hmem⟩

/-- Any interleaving of the two callers preserves the registry
invariant. -/
theorem runTwoCallers_inv (cfg : SubscriberConfig) (name topic : String)
    (sched : List Bool) (s : TwoCallerState)
    (h : RegInv name s.trace s.reg.broker) :
    RegInv name (runTwoCallers cfg noFaults name topic sched s).trace
      (runTwoCallers cfg noFaults name topic sched s).reg.broker := by
  induction sched generalizing s with
  | nil => simpa [runTwoCallers] using h
  | cons who rest ih =>
      simp only [runTwoCallers]
      apply ih
      cases who
      · simpa [stepTwo] using stepCaller_inv cfg name topic s.a s.reg s.trace h
      · simpa [stepTwo] using stepCaller_inv cfg name topic s.b s.reg s.trace h

/-- Claim C1, amended: the exclusive lock serializes the slow paths of
two concurrent first-time callers, and because the slow path begins by
querying broker-side existence, the caller serialized second observes
the subscription created by the first and never reaches the creation
call — every interleaving issues at most one broker-side
`CreateSubscription` for the name. -/
theorem claim1_at_most_one_creation (cfg : SubscriberConfig)
    (name topic : String) (cache : List (String × PubsubSubscription))
    (b : Broker) (sched : List Bool) :
    countCreates
      (runTwoCallers cfg noFaults name topic sched
        (initTwoCallers cache b)).trace ≤ 1 := by
  have h := runTwoCallers_inv cfg name topic sched (initTwoCallers cache b)
    (Or.inl (by simp [initTwoCallers, countCreates]))
  rcases h with h0 | ⟨h1, _⟩ <;> omega

/-- Counterexample to C1 as stated: at a state whose cache already holds
the name — exactly the state a racing caller leaves between the
read-locked check and the exclusive lock — the slow path does not
re-check the cache: it queries broker-side existence and returns a fresh
handle instead of the cached one, so the claimed double-checked cache
read does not exist in the code. -/
theorem claim1_counterexample :
    (slowPath cfgDefault noFaults
       { cache := [("orders", { name := "orders", receiveSettings := 7 })],
         broker := { topics := ["orders"], subs := ["orders"] } }
       "orders" "orders").2.2 = [BrokerOp.subExists "orders"] ∧
    (slowPath cfgDefault noFaults
       { cache := [("orders", { name := "orders", receiveSettings := 7 })],
         broker := { topics := ["orders"], subs := ["orders"] } }
       "orders" "orders").1 ≠
      ResolveOutcome.ok { name := "orders", receiveSettings := 7 } := by
  decide

/-- Claim C6: composing the synchronization edges of `Subscribe` and
`Close`, when `Close` returns every registered receive loop has
finished, every output channel has been closed, and every send on an
output channel happened before that channel was closed — hence before
`Close` returned. -/
theorem claim6_close_waits (r : ShutdownRun) (h : ShutdownHb r) :
    ∀ s ∈ r.subs,
      r.tReceiveReturn s < r.tCloseReturn ∧
      r.tCloseOutput s < r.tCloseReturn ∧
      ∀ t ∈ r.sendTimes s, t < r.tCloseOutput s ∧ t < r.tCloseReturn := by
  obtain ⟨h1, h2, h3, h4, h5, h6⟩ := h
  intro s hs
  have e2 := h2 s hs
  have e3 := h3 s hs
  have e4 := h4 s hs
  have e5 := h5 s hs
  refine ⟨by omega, by omega, ?_⟩
  intro t ht
  have e1 := h1 s hs t ht
  omega

/-- Fixture: a shutdown run with one subscription and one send. -/
def runFixture : ShutdownRun :=
  { subs := [0], sendTimes := fun _ => [0],
    tReceiveReturn := fun _ => 1, tReceiveFinishedClosed := fun _ => 2,
    tCloseOutput := fun _ => 3, tWgDone := fun _ => 4,
    tWgWaitReturn := 5, tCloseReturn := 6 }

/-- Witness for C6 on a concrete run with one subscription and one
send. -/
theorem claim6_witness :
    ShutdownHb runFixture ∧
    ∀ s ∈ runFixture.subs,
      runFixture.tReceiveReturn s < runFixture.tCloseReturn ∧
      runFixture.tCloseOutput s < runFixture.tCloseReturn ∧
      ∀ t ∈ runFixture.sendTimes s,
        t < runFixture.tCloseOutput s ∧ t < runFixture.tCloseReturn :=
  ⟨by refine ⟨?_, ?_, ?_, ?_, ?_, ?_⟩ <;> simp [runFixture],
   claim6_close_waits runFixture
     (by refine ⟨?_, ?_, ?_, ?_, ?_, ?_⟩ <;> simp [runFixture])⟩

/-- Claim C4: a native message whose unmarshaling fails is negatively
acknowledged to the broker, nothing is sent on the output channel for it,
and the loop goes on to process the remaining native messages. -/
theorem claim4_unmarshal_failure_nacks (u : PubsubMessage → Option WMessage)
    (f : Fate) (fs : List Fate) (pm : PubsubMessage)
    (pms : List PubsubMessage) (h : u pm = none) :
    handleMessage u f pm = [Event.brokerNack] ∧
    (∀ m, Event.send m ∉ handleMessage u f pm) ∧
    receiveLoop u (f :: fs) (pm :: pms) =
      Event.brokerNack :: receiveLoop u fs pms := by
  have h1 : handleMessage u f pm = [Event.brokerNack] := by
    simp [handleMessage, h]
  refine ⟨h1, ?_, ?_⟩
  · intro m
    rw [h1]
    simp
  · show handleMessage u f pm ++ receiveLoop u fs pms = _
    rw [h1]
    rfl

/-- Witness for C4: the fixture unmarshaler rejects the empty payload. -/
theorem claim4_witness :
    uFixture { data := [], attributes := [] } = none ∧
    handleMessage uFixture (Fate.sent AckRace.ackedFirst)
      { data := [], attributes := [] } = [Event.brokerNack] ∧
    (∀ m, Event.send m ∉ handleMessage uFixture (Fate.sent AckRace.ackedFirst)
      { data := [], attributes := [] }) ∧
    receiveLoop uFixture [Fate.sent AckRace.ackedFirst, Fate.sent AckRace.ackedFirst]
      [{ data := [], attributes := [] }, { data := [5], attributes := [] }] =
      Event.brokerNack ::
        receiveLoop uFixture [Fate.sent AckRace.ackedFirst]
          [{ data := [5], attributes := [] }] :=
  ⟨rfl,
   claim4_unmarshal_failure_nacks uFixture (Fate.sent AckRace.ackedFirst)
     [Fate.sent AckRace.ackedFirst] { data := [], attributes := [] }
     [{ data := [5], attributes := [] }] rfl⟩

/-- Claim C5: for a message that reached the output channel, the second
`select` issues exactly one broker acknowledgment: positive when the ack
completion signal wins, negative when the nack completion signal wins,
and negative when the subscriber is closing. -/
theorem claim5_delivered_ack_exclusive (u : PubsubMessage → Option WMessage)
    (pm : PubsubMessage) (m : WMessage) (h : u pm = some m) :
    handleMessage u (Fate.sent AckRace.ackedFirst) pm =
      [Event.send m, Event.brokerAck] ∧
    handleMessage u (Fate.sent AckRace.nackedFirst) pm =
      [Event.send m, Event.brokerNack] ∧
    handleMessage u (Fate.sent AckRace.closingFirst) pm =
      [Event.send m, Event.brokerNack] ∧
    ∀ race, (handleMessage u (Fate.sent race) pm).countP isBrokerAckEvent = 1 := by
  refine ⟨by simp [handleMessage, h], by simp [handleMessage, h],
          by simp [handleMessage, h], ?_⟩
  intro race
  cases race <;>
    simp [handleMessage, h, isBrokerAckEvent]

/-- Witness for C5: the fixture unmarshaler accepts payload `[5]`. -/
theorem claim5_witness :
    uFixture { data := [5], attributes := [] } =
      some { uuid := "u1", payload := [5], metadata := [] } ∧
    (handleMessage uFixture (Fate.sent AckRace.ackedFirst)
       { data := [5], attributes := [] } =
      [Event.send { uuid := "u1", payload := [5], metadata := [] },
       Event.brokerAck] ∧
     handleMessage uFixture (Fate.sent AckRace.nackedFirst)
       { data := [5], attributes := [] } =
      [Event.send { uuid := "u1", payload := [5], metadata := [] },
       Event.brokerNack] ∧
     handleMessage uFixture (Fate.sent AckRace.closingFirst)
       { data := [5], attributes := [] } =
      [Event.send { uuid := "u1", payload := [5], metadata := [] },
       Event.brokerNack] ∧
     ∀ race, (handleMessage uFixture (Fate.sent race)
       { data := [5], attributes := [] }).countP isBrokerAckEvent = 1) :=
  ⟨rfl, claim5_delivered_ack_exclusive uFixture _ _ rfl⟩

end Watermill.GoogleCloud

namespace Watermill.Nats

/-- Fixture: a marshaler failing exactly on the UUID `"bad"`, mapping
other messages to their payload. -/
def marshalFixture : String → WMessage → Except String (List Nat) :=
  fun _ m => if m.uuid = "bad" then Except.error "codec failure" else Except.ok m.payload

/-- Fixture: a transport accepting every payload. -/
def transportOk : String → List Nat → Option String := fun _ _ => none

/-- Claim C3: when marshaling the i-th message fails, `Publish` returns
the codec error itself (unwrapped), the messages before it have already
been submitted to the transport in input order, and neither the failing
message nor any later one is submitted. -/
theorem claim3_marshal_failure_aborts
    (marshal : String → WMessage → Except String (List Nat))
    (transport : String → List Nat → Option String) (topic : String)
    (ms1 : List WMessage) (bs : List (List Nat)) (m : WMessage)
    (ms2 : List WMessage) (e : String)
    (h1 : List.Forall₂ (fun x b => marshal topic x = Except.ok b) ms1 bs)
    (h2 : ∀ b ∈ bs, transport topic b = none)
    (h3 : marshal topic m = Except.error e) :
    streamingPublish marshal transport topic (ms1 ++ m :: ms2) = (some e, bs) := by
  induction h1 with
  | nil => simp [streamingPublish, h3]
  | cons hx hrest ih =>
      rename_i x b xs bs2
      have hb : transport topic b = none := h2 b (by simp)
      have ih2 : streamingPublish marshal transport topic (xs ++ m :: ms2) =
          (some e, bs2) := ih (fun b2 hb2 => h2 b2 (by simp [hb2]))
      simp [streamingPublish, hx, hb, ih2]

/-- Witness for C3: three messages, the second of which fails to
marshal; only the first payload is submitted. -/
theorem claim3_witness :
    List.Forall₂
      (fun x b => marshalFixture "orders" x = Except.ok b)
      [{ uuid := "1", payload := [10], metadata := [] }] [[10]] ∧
    (∀ b ∈ [[10]], transportOk "orders" b = none) ∧
    marshalFixture "orders" { uuid := "bad", payload := [11], metadata := [] } =
      Except.error "codec failure" ∧
    streamingPublish marshalFixture transportOk "orders"
      [{ uuid := "1", payload := [10], metadata := [] },
       { uuid := "bad", payload := [11], metadata := [] },
       { uuid := "3", payload := [12], metadata := [] }] =
      (some "codec failure", [[10]]) := by
  refine ⟨List.Forall₂.cons rfl List.Forall₂.nil, ?_, rfl, ?_⟩
  · intro b _
    rfl
  · exact claim3_marshal_failure_aborts marshalFixture transportOk "orders"
      [{ uuid := "1", payload := [10], metadata := [] }] [[10]]
      { uuid := "bad", payload := [11], metadata := [] }
      [{ uuid := "3", payload := [12], metadata := [] }] "codec failure"
      (List.Forall₂.cons rfl List.Forall₂.nil)
      (fun b _ => rfl) rfl

end Watermill.Nats
